import Mathlib

/-!
A verification development for the authentication backend
(`src/lib/server/rate-limit.ts`, `src/lib/server/session.ts`,
`src/lib/server/2fa.ts`, the server actions under `src/app` and the
unnamed action modules).

Conventions of the shallow embedding:
* JavaScript `Date.now()` timestamps (milliseconds) are `Int`.
* JavaScript numbers used as token counts are `Int` (so that a negative
  count is representable, exactly as in the source).
* `Math.floor(a / b)` on integers is `Int.fdiv` (floor division).
* A `Map<_Key, V>` is modelled per key: the stored entry for one fixed key
  is an `Option V`; operations on distinct keys are independent in the
  source, so all per-key claims are stated over a single key's entry.
* Mutation of the stored bucket object (JavaScript references) is modelled
  by returning the new entry value.
-/

/-! ### Server actions as effect-trace functions

Each Next.js server action is embedded as a pure function from an
environment `Env` — holding the results of its external calls (rate-limit
verdicts, the current session, form fields, crypto verdicts, store reads) —
to its returned `ActionResult` together with the ordered trace of external
calls it performs. Every branch reproduces the source's early-return
chain. -/

/-- Entry of `RefillingTokenBucket.storage` (`interface RefillBucket`):
`count` and the `refilledAt` millisecond timestamp. -/
structure RefillBucket where
  count : Int
  refilledAt : Int
deriving DecidableEq, Repr

namespace RefillingTokenBucket

/-- `RefillingTokenBucket.check(key, cost)` from `src/lib/server/rate-limit.ts`:
non-mutating; absent key allows; otherwise computes
`refill = floor((now - refilledAt) / (interval*1000))` and compares the
(capped) hypothetical count with `cost`. -/
def check (max refillIntervalSeconds : Int) (bucket : Option RefillBucket)
    (now cost : Int) : Bool :=
  match bucket with
  | none => true
  | some b =>
    let refill := Int.fdiv (now - b.refilledAt) (refillIntervalSeconds * 1000)
    if refill > 0 then
      decide (min (b.count + refill) max ≥ cost)
    else
      decide (b.count ≥ cost)

/-- `RefillingTokenBucket.consume(key, cost)`: absent key creates a bucket
pre-seeded at `max - cost` and returns true; otherwise the refilled count
and `refilledAt := now` are persisted, then `cost` is subtracted only when
sufficient. Returns the boolean result and the stored entry after the call
(the source mutates the stored object in place, so the entry is persisted
on the failure path too). -/
def consume (max refillIntervalSeconds : Int) (bucket : Option RefillBucket)
    (now cost : Int) : Bool × RefillBucket :=
  match bucket with
  | none => (true, { count := max - cost, refilledAt := now })
  | some b =>
    let refill := Int.fdiv (now - b.refilledAt) (refillIntervalSeconds * 1000)
    let count := min (b.count + refill) max
    if count < cost then
      (false, { count := count, refilledAt := now })
    else
      (true, { count := count - cost, refilledAt := now })

end RefillingTokenBucket

/-- Entry of `ExpiringTokenBucket.storage` (`interface ExpiringBucket`). -/
structure ExpiringBucket where
  count : Int
  createdAt : Int
deriving DecidableEq, Repr

namespace ExpiringTokenBucket

/-- `ExpiringTokenBucket.check(key, cost)`: absent key allows; an expired
bucket (`now - createdAt ≥ expiresInSeconds*1000`) allows; otherwise
compares `count` with `cost`. -/
def check (expiresInSeconds : Int) (bucket : Option ExpiringBucket)
    (now cost : Int) : Bool :=
  match bucket with
  | none => true
  | some b =>
    if now - b.createdAt ≥ expiresInSeconds * 1000 then true
    else decide (b.count ≥ cost)

/-- `ExpiringTokenBucket.consume(key, cost)`: absent key creates a bucket at
`max - cost` (createdAt := now) and returns true; an expired bucket first
snaps `count` back to `max` (note: `createdAt` is NOT updated); then `cost`
is subtracted only when sufficient. The snapped count is persisted on the
failure path too (in-place mutation in the source). -/
def consume (max expiresInSeconds : Int) (bucket : Option ExpiringBucket)
    (now cost : Int) : Bool × ExpiringBucket :=
  match bucket with
  | none => (true, { count := max - cost, createdAt := now })
  | some b =>
    let count := if now - b.createdAt ≥ expiresInSeconds * 1000 then max else b.count
    if count < cost then
      (false, { count := count, createdAt := b.createdAt })
    else
      (true, { count := count - cost, createdAt := b.createdAt })

end ExpiringTokenBucket

/-- Entry of `Throttler.storage` (`interface ThrottlingCounter`): the
current timeout level (index into `timeoutSeconds`) and the last-update
millisecond timestamp. -/
structure ThrottlingCounter where
  timeout : Nat
  updatedAt : Int
deriving DecidableEq, Repr

namespace Throttler

/-- `Throttler.consume(key)` from `src/lib/server/rate-limit.ts`: absent key
creates a level-0 counter and allows; otherwise allows iff
`now - updatedAt ≥ timeoutSeconds[timeout] * 1000`, in which case the
timestamp is updated and the level advances capped at `length - 1`.
The array access `timeoutSeconds[counter.timeout]` is modelled with `getD`;
the safety claim about it is proved separately. -/
def consume (timeoutSeconds : List Int) (counter : Option ThrottlingCounter)
    (now : Int) : Bool × ThrottlingCounter :=
  match counter with
  | none => (true, { timeout := 0, updatedAt := now })
  | some c =>
    if now - c.updatedAt ≥ timeoutSeconds.getD c.timeout 0 * 1000 then
      (true, { timeout := min (c.timeout + 1) (timeoutSeconds.length - 1), updatedAt := now })
    else
      (false, c)

end Throttler

/-- One call on a `RefillingTokenBucket` key: a `check` or a `consume`,
each at some instant with some cost. -/
inductive RTBOp where
  | check (now cost : Int)
  | consume (now cost : Int)
deriving DecidableEq, Repr

/-- The instant of a call. -/
def RTBOp.now : RTBOp → Int
  | .check n _ => n
  | .consume n _ => n

/-- The cost of a call. -/
def RTBOp.cost : RTBOp → Int
  | .check _ c => c
  | .consume _ c => c

/-- Run a sequence of calls against one key's stored entry of a
`RefillingTokenBucket`; `check` never mutates, `consume` stores its
resulting bucket. -/
def runRTB (max refillIntervalSeconds : Int) :
    Option RefillBucket → List RTBOp → Option RefillBucket
  | s, [] => s
  | s, .check _ _ :: rest => runRTB max refillIntervalSeconds s rest
  | s, .consume now cost :: rest =>
      runRTB max refillIntervalSeconds
        (some (RefillingTokenBucket.consume max refillIntervalSeconds s now cost).2) rest

/-- A call sequence is time-valid after instant `t` when the call instants
are nondecreasing starting from `t` (the clock is monotone). -/
def RTBTimeValid : Int → List RTBOp → Bool
  | _, [] => true
  | t, op :: rest => decide (t ≤ op.now) && RTBTimeValid op.now rest

/-- All costs of the sequence lie in `[0, max]`. -/
def RTBCostsLE (max : Int) (ops : List RTBOp) : Bool :=
  ops.all fun op => decide (0 ≤ op.cost) && decide (op.cost ≤ max)

/-- One call on an `ExpiringTokenBucket` key. -/
inductive ETBOp where
  | check (now cost : Int)
  | consume (now cost : Int)
deriving DecidableEq, Repr

/-- The cost of a call. -/
def ETBOp.cost : ETBOp → Int
  | .check _ c => c
  | .consume _ c => c

/-- Run a sequence of calls against one key's stored entry of an
`ExpiringTokenBucket`. -/
def runETB (max expiresInSeconds : Int) :
    Option ExpiringBucket → List ETBOp → Option ExpiringBucket
  | s, [] => s
  | s, .check _ _ :: rest => runETB max expiresInSeconds s rest
  | s, .consume now cost :: rest =>
      runETB max expiresInSeconds
        (some (ExpiringTokenBucket.consume max expiresInSeconds s now cost).2) rest

/-- All costs of the sequence lie in `[0, max]`. -/
def ETBCostsLE (max : Int) (ops : List ETBOp) : Bool :=
  ops.all fun op => decide (0 ≤ op.cost) && decide (op.cost ≤ max)

/-- Run a sequence of `consume` calls (pairs `(now, cost)`) against one
key's entry of an `ExpiringTokenBucket`, returning the final entry and
whether every call returned true. -/
def runETBConsumes (max exp : Int) :
    Option ExpiringBucket → List (Int × Int) → Option ExpiringBucket × Bool
  | s, [] => (s, true)
  | s, (now, cost) :: rest =>
    ((runETBConsumes max exp
        (some (ExpiringTokenBucket.consume max exp s now cost).2) rest).1,
      (ExpiringTokenBucket.consume max exp s now cost).1 &&
        (runETBConsumes max exp
          (some (ExpiringTokenBucket.consume max exp s now cost).2) rest).2)

/-- No call of the sequence happens at an instant at which the stored
bucket is already expired (`now - createdAt ≥ expiresInSeconds*1000`),
i.e. the whole sequence stays inside one expiry window. -/
def ETBNoSnap (max exp : Int) : Option ExpiringBucket → List (Int × Int) → Bool
  | _, [] => true
  | s, (now, cost) :: rest =>
    (match s with
      | none => true
      | some b => decide (now - b.createdAt < exp * 1000)) &&
      ETBNoSnap max exp (some (ExpiringTokenBucket.consume max exp s now cost).2) rest

/-- One call on a `Throttler` key: `consume` at some instant, or `reset`. -/
inductive ThrottlerOp where
  | consume (now : Int)
  | reset
deriving DecidableEq, Repr

/-- Run a sequence of calls against one key's stored entry of a
`Throttler`; `consume` always stores its resulting counter (the counter is
mutated in place on the allowed path and left untouched otherwise), `reset`
deletes the entry. -/
def runThrottler (timeoutSeconds : List Int) :
    Option ThrottlingCounter → List ThrottlerOp → Option ThrottlingCounter
  | s, [] => s
  | s, .consume now :: rest =>
      runThrottler timeoutSeconds (some (Throttler.consume timeoutSeconds s now).2) rest
  | _, .reset :: rest => runThrottler timeoutSeconds none rest

/-- One day in milliseconds (`1000 * 60 * 60 * 24`). -/
def dayMs : Int := 1000 * 60 * 60 * 24

/-- The expiry/renewal core of `validateSessionToken` in
`src/lib/server/session.ts`, for a session row that exists. The stored
`expires_at` column is in UNIX seconds (`row.number(2) * 1000` on read,
`Math.floor(ms / 1000)` on write). Returns the `expiresAt` (ms) of the
returned session (`none` when the session is deleted and `(null, null)` is
returned) and the stored `expires_at` (seconds) after the call (`none` when
the row is deleted). -/
def validateSessionExpiry (now expiresAtSec : Int) : Option Int × Option Int :=
  if now ≥ expiresAtSec * 1000 then
    (none, none)
  else if now ≥ expiresAtSec * 1000 - 15 * dayMs then
    (some (now + 30 * dayMs), some (Int.fdiv (now + 30 * dayMs) 1000))
  else
    (some (expiresAtSec * 1000), some expiresAtSec)

/-- A row of the `session` table (`setup.sql`): `id`, `user_id`,
`expires_at` (UNIX seconds), `two_factor_verified`. Session ids (SHA-256
hex strings) are abstracted to `Nat`. -/
structure SessionRow where
  id : Nat
  userId : Nat
  expiresAtSec : Int
  twoFactorVerified : Bool
deriving DecidableEq, Repr

/-- The repository operations that read-modify the `session` table:
`createSession` (INSERT), `setSessionAs2FAVerified` (UPDATE ... SET
two_factor_verified = 1 WHERE id), `invalidateSession` (DELETE WHERE id),
`invalidateUserSessions` (DELETE WHERE user_id), `validateSessionToken`
(DELETE when expired / UPDATE expires_at on renewal), and the session
UPDATE inside `resetUser2FAWithRecoveryCode` (SET two_factor_verified = 0
WHERE user_id). -/
inductive SessionOp where
  | create (id userId : Nat) (now : Int) (flag : Bool)
  | set2FAVerified (id : Nat)
  | invalidate (id : Nat)
  | invalidateAllForUser (userId : Nat)
  | validate (id : Nat) (now : Int)
  | reset2FA (userId : Nat)
deriving DecidableEq, Repr

/-- SQL semantics of each operation on the `session` table. The INSERT of
`createSession` applies only when the primary key is fresh (a duplicate id
would violate the PK constraint and throw, leaving the table unchanged). -/
def applySessionOp (t : List SessionRow) : SessionOp → List SessionRow
  | .create id userId now flag =>
      if t.any (fun s => s.id == id) then t
      else t ++ [{ id := id, userId := userId,
                   expiresAtSec := Int.fdiv (now + 30 * dayMs) 1000,
                   twoFactorVerified := flag }]
  | .set2FAVerified id =>
      t.map fun s => if s.id = id then { s with twoFactorVerified := true } else s
  | .invalidate id => t.filter fun s => s.id != id
  | .invalidateAllForUser userId => t.filter fun s => s.userId != userId
  | .validate id now =>
      match t.find? (fun s => s.id == id) with
      | none => t
      | some s =>
        if now ≥ s.expiresAtSec * 1000 then t.filter fun r => r.id != id
        else if now ≥ s.expiresAtSec * 1000 - 15 * dayMs then
          t.map fun r =>
            if r.id = id then { r with expiresAtSec := Int.fdiv (now + 30 * dayMs) 1000 }
            else r
        else t
  | .reset2FA userId =>
      t.map fun s => if s.userId = userId then { s with twoFactorVerified := false } else s

/-- A row of the `user` table, restricted to the columns
`resetUser2FAWithRecoveryCode` touches: `id`, `recovery_code` and
`totp_key`. The stored recovery code is held encrypted in the source;
encryption is an opaque bijection (`decryptToString (encryptString x) = x`),
so the row carries the plaintext and equality of ciphertexts coincides
with equality of plaintexts. -/
structure UserRow where
  id : Nat
  recoveryCode : String
  totpKey : Option String
deriving DecidableEq, Repr

/-- `resetUser2FAWithRecoveryCode(userId, recoveryCode)`: reads the user's
stored recovery code (`queryOne`, the first row with this id); returns
false when the user is missing or the supplied code differs; otherwise
clears `two_factor_verified` on every session of the user, then performs
the compare-and-swap `UPDATE user SET recovery_code = ?, totp_key = NULL
WHERE id = ? AND recovery_code = ?` and returns `changes > 0`. The freshly
generated replacement code (`generateRandomRecoveryCode`) is passed in as
`newCode`. Returns the boolean result, the `user` table and the `session`
table after the call. -/
def resetUser2FAWithRecoveryCode (users : List UserRow)
    (sessions : List SessionRow) (userId : Nat) (recoveryCode newCode : String) :
    Bool × List UserRow × List SessionRow :=
  match users.find? (fun u => u.id == userId) with
  | none => (false, users, sessions)
  | some u =>
    if recoveryCode ≠ u.recoveryCode then (false, users, sessions)
    else
      (decide (0 < (users.filter fun v =>
          v.id = userId ∧ v.recoveryCode = u.recoveryCode).length),
        users.map fun v =>
          if v.id = userId ∧ v.recoveryCode = u.recoveryCode then
            { v with recoveryCode := newCode, totpKey := none }
          else v,
        sessions.map fun s =>
          if s.userId = userId then { s with twoFactorVerified := false } else s)

/-- The `User` object as the actions see it (`src/lib/server/user.ts`):
`registered2FA` is derived from the presence of a TOTP key. -/
structure UserInfo where
  id : Nat
  email : String
  emailVerified : Bool
  registered2FA : Bool
deriving DecidableEq, Repr

/-- The `Session` object as the actions see it. -/
structure SessionInfo where
  id : Nat
  userId : Nat
  twoFactorVerified : Bool
deriving DecidableEq, Repr

/-- An `EmailVerificationRequest` as the actions see it. -/
structure EVRequestInfo where
  userId : Nat
  email : String
  code : String
  expiresAtMs : Int
deriving DecidableEq, Repr

/-- A `PasswordResetSession` as `validatePasswordResetSessionRequest`
returns it: the two checkpoint flags and the owning user. -/
structure ResetSessionInfo where
  userId : Nat
  emailVerified : Bool
  twoFactorVerified : Bool
deriving DecidableEq, Repr

/-- The result value of a server action: a `{ message }` object or a
`redirect(path)`. -/
inductive ActionResult where
  | message (m : String)
  | redirect (path : String)
deriving DecidableEq, Repr

/-- One observable external call of a server action, in program order.
`checkBucket`/`consumeBucket`/`resetBucket` are tagged with the bucket
(`login_ip`, `email_verification`, `send_verification_email`, `totp`,
`totp_update`, `recovery_code`, `password_update`, `password_reset_ip`,
`password_reset_user`). -/
inductive Effect where
  | globalLimit
  | readClientIP
  | readSession
  | checkBucket (name : String)
  | consumeBucket (name : String)
  | resetBucket (name : String)
  | consumeThrottler
  | resetThrottler
  | readDB (what : String)
  | verifyHash
  | verifyStrength
  | verifyTotp
  | invalidatePasswordResetSessions (uid : Nat)
  | invalidateSessions (uid : Nat)
  | updatePassword (uid : Nat)
  | createSessionFx (uid : Nat) (twoFactorVerified : Bool)
  | setSessionCookie
  | deleteResetCookie
  | deleteEmailVerificationRequests (uid : Nat)
  | insertEmailVerificationRequest (uid : Nat) (email code : String)
  | sendVerificationMail (email code : String)
  | setEmailVerificationCookie
  | deleteEmailVerificationCookie
  | updateEmailVerified (uid : Nat) (email : String)
  | updateTotpKey (uid : Nat)
  | set2FAVerifiedFx (sid : Nat)
  | recoveryReset (uid : Nat)
  | createPasswordResetSessionFx (uid : Nat)
  | sendResetMail
  | setResetSessionCookie
deriving DecidableEq, Repr

/-- The environment of one action invocation: results of all external
calls the actions can make. Each field models exactly one collaborator. -/
structure Env where
  globalOk : Bool
  now : Int
  clientIP : Option String
  loginIpCheckOk : Bool
  loginIpConsumeOk : Bool
  throttlerOk : Bool
  sessionUser : Option (SessionInfo × UserInfo)
  email : Option String
  password : Option String
  newPassword : Option String
  code : Option String
  key : Option String
  emailValid : Bool
  emailAvailable : Bool
  userFromEmail : Option UserInfo
  validPassword : Bool
  strongPassword : Bool
  evCheckOk : Bool
  evConsumeOk : Bool
  sendVerifCheckOk : Bool
  sendVerifConsumeOk : Bool
  totpCheckOk : Bool
  totpConsumeOk : Bool
  totpUpdateCheckOk : Bool
  totpUpdateConsumeOk : Bool
  recoveryCheckOk : Bool
  recoveryConsumeOk : Bool
  passwordUpdateCheckOk : Bool
  passwordUpdateConsumeOk : Bool
  resetIpCheckOk : Bool
  resetIpConsumeOk : Bool
  resetUserConsumeOk : Bool
  verificationRequest : Option EVRequestInfo
  newVerificationCode : String
  totpKey : Option String
  totpValid : Bool
  keyDecodeOk : Bool
  keyBytes20 : Bool
  resetSession : Option (ResetSessionInfo × UserInfo)
  recoveryResetOk : Bool
deriving DecidableEq, Repr

/-- `createEmailVerificationRequest(userId, email)` from
`src/lib/server/email-verification.ts`: deletes every prior request of
that user, then inserts the fresh one (random id and code, 10-minute
expiry); as an effect trace. -/
def createEmailVerificationRequestFx (uid : Nat) (email code : String) :
    List Effect :=
  [Effect.deleteEmailVerificationRequests uid,
    Effect.insertEmailVerificationRequest uid email code]

/-- `loginAction` (unnamed login actions module). -/
def loginAction (e : Env) : ActionResult × List Effect :=
  if !e.globalOk then (.message "Too many requests", [Effect.globalLimit]) else
  let ipFx := match e.clientIP with
    | some _ => [Effect.checkBucket "login_ip"]
    | none => []
  let fx0 := [Effect.globalLimit, Effect.readClientIP] ++ ipFx
  let ipBlocked := match e.clientIP with
    | some _ => !e.loginIpCheckOk
    | none => false
  if ipBlocked then (.message "Too many requests", fx0) else
  match e.email, e.password with
  | some email, some password =>
    if email = "" || password = "" then
      (.message "Please enter your email and password.", fx0)
    else if !e.emailValid then (.message "Invalid email", fx0)
    else
      let fx1 := fx0 ++ [Effect.readDB "user_from_email"]
      match e.userFromEmail with
      | none => (.message "Account does not exist", fx1)
      | some user =>
        let ipcFx := match e.clientIP with
          | some _ => [Effect.consumeBucket "login_ip"]
          | none => []
        let ipcBlocked := match e.clientIP with
          | some _ => !e.loginIpConsumeOk
          | none => false
        if ipcBlocked then (.message "Too many requests", fx1 ++ ipcFx) else
        let fx2 := fx1 ++ ipcFx ++ [Effect.consumeThrottler]
        if !e.throttlerOk then (.message "Too many requests", fx2) else
        let fx3 := fx2 ++ [Effect.readDB "password_hash", Effect.verifyHash]
        if !e.validPassword then (.message "Invalid password", fx3) else
        let fx4 := fx3 ++ [Effect.resetThrottler,
          Effect.createSessionFx user.id false, Effect.setSessionCookie]
        if !user.emailVerified then (.redirect "/verify-email", fx4)
        else if !user.registered2FA then (.redirect "/2fa/setup", fx4)
        else (.redirect "/2fa", fx4)
  | _, _ => (.message "Invalid or missing fields", fx0)

/-- `verifyEmailAction` (unnamed verify-email actions module). -/
def verifyEmailAction (e : Env) : ActionResult × List Effect :=
  if !e.globalOk then (.message "Too many requests", [Effect.globalLimit]) else
  let fx0 := [Effect.globalLimit, Effect.readSession]
  match e.sessionUser with
  | none => (.message "Not authenticated", fx0)
  | some (session, user) =>
    if user.registered2FA && !session.twoFactorVerified then
      (.message "Forbidden", fx0) else
    let fx1 := fx0 ++ [Effect.checkBucket "email_verification"]
    if !e.evCheckOk then (.message "Too many requests", fx1) else
    let fx2 := fx1 ++ [Effect.readDB "verification_request"]
    match e.verificationRequest with
    | none => (.message "Not authenticated", fx2)
    | some req =>
      match e.code with
      | none => (.message "Invalid or missing fields", fx2)
      | some code =>
        if code = "" then (.message "Enter your code", fx2) else
        let fx3 := fx2 ++ [Effect.consumeBucket "email_verification"]
        if !e.evConsumeOk then (.message "Too many requests", fx3) else
        if e.now ≥ req.expiresAtMs then
          (.message
            "The verification code was expired. We sent another code to your inbox.",
            fx3 ++ createEmailVerificationRequestFx req.userId req.email
                e.newVerificationCode
              ++ [Effect.sendVerificationMail req.email e.newVerificationCode])
        else if req.code ≠ code then (.message "Incorrect code.", fx3)
        else
          let fx4 := fx3 ++ [Effect.deleteEmailVerificationRequests user.id,
            Effect.invalidatePasswordResetSessions user.id,
            Effect.updateEmailVerified user.id req.email,
            Effect.deleteEmailVerificationCookie]
          if !user.registered2FA then (.redirect "/2fa/setup", fx4)
          else (.redirect "/", fx4)

/-- `resendEmailVerificationCodeAction` (unnamed verify-email actions
module). Note: this action performs no global rate-limit call. -/
def resendEmailVerificationCodeAction (e : Env) : ActionResult × List Effect :=
  let fx0 := [Effect.readSession]
  match e.sessionUser with
  | none => (.message "Not authenticated", fx0)
  | some (session, user) =>
    if user.registered2FA && !session.twoFactorVerified then
      (.message "Forbidden", fx0) else
    let fx1 := fx0 ++ [Effect.checkBucket "send_verification_email"]
    if !e.sendVerifCheckOk then (.message "Too many requests", fx1) else
    let fx2 := fx1 ++ [Effect.readDB "verification_request"]
    match e.verificationRequest with
    | none =>
      if user.emailVerified then (.message "Forbidden", fx2) else
      let fx3 := fx2 ++ [Effect.consumeBucket "send_verification_email"]
      if !e.sendVerifConsumeOk then (.message "Too many requests", fx3) else
      (.message "A new code was sent to your inbox.",
        fx3 ++ createEmailVerificationRequestFx user.id user.email
            e.newVerificationCode
          ++ [Effect.sendVerificationMail user.email e.newVerificationCode,
              Effect.setEmailVerificationCookie])
    | some req =>
      let fx3 := fx2 ++ [Effect.consumeBucket "send_verification_email"]
      if !e.sendVerifConsumeOk then (.message "Too many requests", fx3) else
      (.message "A new code was sent to your inbox.",
        fx3 ++ createEmailVerificationRequestFx user.id req.email
            e.newVerificationCode
          ++ [Effect.sendVerificationMail req.email e.newVerificationCode,
              Effect.setEmailVerificationCookie])

/-- `setup2FAAction` (`src/app/2fa/setup/actions.ts`). -/
def setup2FAAction (e : Env) : ActionResult × List Effect :=
  if !e.globalOk then (.message "Too many requests", [Effect.globalLimit]) else
  let fx0 := [Effect.globalLimit, Effect.readSession]
  match e.sessionUser with
  | none => (.message "Not authenticated", fx0)
  | some (session, user) =>
    if !user.emailVerified then (.message "Forbidden", fx0) else
    if user.registered2FA && !session.twoFactorVerified then
      (.message "Forbidden", fx0) else
    let fx1 := fx0 ++ [Effect.checkBucket "totp_update"]
    if !e.totpUpdateCheckOk then (.message "Too many requests", fx1) else
    match e.key, e.code with
    | some encodedKey, some code =>
      if code = "" then (.message "Please enter your code", fx1) else
      if encodedKey.length ≠ 28 then (.message "Please enter your code", fx1) else
      if !e.keyDecodeOk then (.message "Invalid key", fx1) else
      if !e.keyBytes20 then (.message "Invalid key", fx1) else
      let fx2 := fx1 ++ [Effect.consumeBucket "totp_update"]
      if !e.totpUpdateConsumeOk then (.message "Too many requests", fx2) else
      let fx3 := fx2 ++ [Effect.verifyTotp]
      if !e.totpValid then (.message "Invalid code", fx3) else
      (.redirect "/recovery-code",
        fx3 ++ [Effect.updateTotpKey session.userId,
          Effect.set2FAVerifiedFx session.id])
    | _, _ => (.message "Invalid or missing fields", fx1)

/-- `verify2FAAction` (2FA challenge, unnamed 2FA actions module). -/
def verify2FAAction (e : Env) : ActionResult × List Effect :=
  if !e.globalOk then (.message "Too many requests", [Effect.globalLimit]) else
  let fx0 := [Effect.globalLimit, Effect.readSession]
  match e.sessionUser with
  | none => (.message "Not authenticated", fx0)
  | some (session, user) =>
    if !user.emailVerified || !user.registered2FA || session.twoFactorVerified then
      (.message "Forbidden", fx0) else
    let fx1 := fx0 ++ [Effect.checkBucket "totp"]
    if !e.totpCheckOk then (.message "Too many requests", fx1) else
    match e.code with
    | none => (.message "Invalid or missing fields", fx1)
    | some code =>
      if code = "" then (.message "Enter your code", fx1) else
      let fx2 := fx1 ++ [Effect.consumeBucket "totp"]
      if !e.totpConsumeOk then (.message "Too many requests", fx2) else
      let fx3 := fx2 ++ [Effect.readDB "totp_key"]
      match e.totpKey with
      | none => (.message "Forbidden", fx3)
      | some _ =>
        let fx4 := fx3 ++ [Effect.verifyTotp]
        if !e.totpValid then (.message "Invalid code", fx4) else
        (.redirect "/",
          fx4 ++ [Effect.resetBucket "totp", Effect.set2FAVerifiedFx session.id])

/-- `reset2FAAction` (`src/app/2fa/setup/components.tsx`, the 2FA recovery
reset). Note: this action performs no global rate-limit call. -/
def reset2FAAction (e : Env) : ActionResult × List Effect :=
  let fx0 := [Effect.readSession]
  match e.sessionUser with
  | none => (.message "Not authenticated", fx0)
  | some (session, user) =>
    if !user.emailVerified || !user.registered2FA || session.twoFactorVerified then
      (.message "Forbidden", fx0) else
    let fx1 := fx0 ++ [Effect.checkBucket "recovery_code"]
    if !e.recoveryCheckOk then (.message "Too many requests", fx1) else
    match e.code with
    | none => (.message "Invalid or missing fields", fx1)
    | some code =>
      if code = "" then (.message "Please enter your code", fx1) else
      let fx2 := fx1 ++ [Effect.consumeBucket "recovery_code"]
      if !e.recoveryConsumeOk then (.message "Too many requests", fx2) else
      let fx3 := fx2 ++ [Effect.recoveryReset user.id]
      if !e.recoveryResetOk then (.message "Invalid recovery code", fx3) else
      (.redirect "/2fa/setup", fx3 ++ [Effect.resetBucket "recovery_code"])

/-- `updatePasswordAction` (unnamed settings actions module). -/
def updatePasswordAction (e : Env) : ActionResult × List Effect :=
  if !e.globalOk then (.message "Too many requests", [Effect.globalLimit]) else
  let fx0 := [Effect.globalLimit, Effect.readSession]
  match e.sessionUser with
  | none => (.message "Not authenticated", fx0)
  | some (session, user) =>
    if user.registered2FA && !session.twoFactorVerified then
      (.message "Forbidden", fx0) else
    let fx1 := fx0 ++ [Effect.checkBucket "password_update"]
    if !e.passwordUpdateCheckOk then (.message "Too many requests", fx1) else
    match e.password, e.newPassword with
    | some _, some _ =>
      let fx2 := fx1 ++ [Effect.verifyStrength]
      if !e.strongPassword then (.message "Weak password", fx2) else
      let fx3 := fx2 ++ [Effect.consumeBucket "password_update"]
      if !e.passwordUpdateConsumeOk then (.message "Too many requests", fx3) else
      let fx4 := fx3 ++ [Effect.readDB "password_hash", Effect.verifyHash]
      if !e.validPassword then (.message "Incorrect password", fx4) else
      (.message "Updated password",
        fx4 ++ [Effect.resetBucket "password_update",
          Effect.invalidateSessions user.id, Effect.updatePassword user.id,
          Effect.createSessionFx user.id session.twoFactorVerified,
          Effect.setSessionCookie])
    | _, _ => (.message "Invalid or missing fields", fx1)

/-- `updateEmailAction` (unnamed settings actions module). -/
def updateEmailAction (e : Env) : ActionResult × List Effect :=
  if !e.globalOk then (.message "Too many requests", [Effect.globalLimit]) else
  let fx0 := [Effect.globalLimit, Effect.readSession]
  match e.sessionUser with
  | none => (.message "Not authenticated", fx0)
  | some (session, user) =>
    if user.registered2FA && !session.twoFactorVerified then
      (.message "Forbidden", fx0) else
    let fx1 := fx0 ++ [Effect.checkBucket "send_verification_email"]
    if !e.sendVerifCheckOk then (.message "Too many requests", fx1) else
    match e.email with
    | none => (.message "Invalid or missing fields", fx1)
    | some email =>
      if email = "" then (.message "Please enter your email", fx1) else
      if !e.emailValid then (.message "Please enter a valid email", fx1) else
      let fx2 := fx1 ++ [Effect.readDB "email_availability"]
      if !e.emailAvailable then (.message "This email is already used", fx2) else
      let fx3 := fx2 ++ [Effect.consumeBucket "send_verification_email"]
      if !e.sendVerifConsumeOk then (.message "Too many requests", fx3) else
      (.redirect "/verify-email",
        fx3 ++ createEmailVerificationRequestFx user.id email e.newVerificationCode
          ++ [Effect.sendVerificationMail email e.newVerificationCode,
              Effect.setEmailVerificationCookie])

/-- `forgotPasswordAction` (`src/app/forgot-password/actions.ts`). -/
def forgotPasswordAction (e : Env) : ActionResult × List Effect :=
  if !e.globalOk then (.message "Too many requests", [Effect.globalLimit]) else
  let ipFx := match e.clientIP with
    | some _ => [Effect.checkBucket "password_reset_ip"]
    | none => []
  let fx0 := [Effect.globalLimit, Effect.readClientIP] ++ ipFx
  let ipBlocked := match e.clientIP with
    | some _ => !e.resetIpCheckOk
    | none => false
  if ipBlocked then (.message "Too many requests", fx0) else
  match e.email with
  | none => (.message "Invalid or missing fields", fx0)
  | some _ =>
    if !e.emailValid then (.message "Invalid email", fx0) else
    let fx1 := fx0 ++ [Effect.readDB "user_from_email"]
    match e.userFromEmail with
    | none => (.message "Account does not exist", fx1)
    | some user =>
      let ipcFx := match e.clientIP with
        | some _ => [Effect.consumeBucket "password_reset_ip"]
        | none => []
      let ipcBlocked := match e.clientIP with
        | some _ => !e.resetIpConsumeOk
        | none => false
      if ipcBlocked then (.message "Too many requests", fx1 ++ ipcFx) else
      let fx2 := fx1 ++ ipcFx ++ [Effect.consumeBucket "password_reset_user"]
      if !e.resetUserConsumeOk then (.message "Too many requests", fx2) else
      (.redirect "/reset-password/verify-email",
        fx2 ++ [Effect.invalidatePasswordResetSessions user.id,
          Effect.createPasswordResetSessionFx user.id, Effect.sendResetMail,
          Effect.setResetSessionCookie])

/-- `resetPasswordAction` (unnamed reset-password actions module). -/
def resetPasswordAction (e : Env) : ActionResult × List Effect :=
  if !e.globalOk then (.message "Too many requests", [Effect.globalLimit]) else
  let fx0 := [Effect.globalLimit, Effect.readDB "reset_session"]
  match e.resetSession with
  | none => (.message "Not authenticated", fx0)
  | some (rs, user) =>
    if !rs.emailVerified then (.message "Forbidden", fx0) else
    if user.registered2FA && !rs.twoFactorVerified then
      (.message "Forbidden", fx0) else
    match e.password with
    | none => (.message "Invalid or missing fields", fx0)
    | some _ =>
      let fx1 := fx0 ++ [Effect.verifyStrength]
      if !e.strongPassword then (.message "Weak password", fx1) else
      (.redirect "/",
        fx1 ++ [Effect.invalidatePasswordResetSessions rs.userId,
          Effect.invalidateSessions rs.userId, Effect.updatePassword rs.userId,
          Effect.createSessionFx user.id rs.twoFactorVerified,
          Effect.setSessionCookie, Effect.deleteResetCookie])

/-- A neutral environment used to build concrete instances. -/
def baseEnv : Env where
  globalOk := true
  now := 0
  clientIP := none
  loginIpCheckOk := true
  loginIpConsumeOk := true
  throttlerOk := true
  sessionUser := none
  email := none
  password := none
  newPassword := none
  code := none
  key := none
  emailValid := false
  emailAvailable := false
  userFromEmail := none
  validPassword := false
  strongPassword := false
  evCheckOk := true
  evConsumeOk := true
  sendVerifCheckOk := true
  sendVerifConsumeOk := true
  totpCheckOk := true
  totpConsumeOk := true
  totpUpdateCheckOk := true
  totpUpdateConsumeOk := true
  recoveryCheckOk := true
  recoveryConsumeOk := true
  passwordUpdateCheckOk := true
  passwordUpdateConsumeOk := true
  resetIpCheckOk := true
  resetIpConsumeOk := true
  resetUserConsumeOk := true
  verificationRequest := none
  newVerificationCode := "00000000"
  totpKey := none
  totpValid := false
  keyDecodeOk := false
  keyBytes20 := false
  resetSession := none
  recoveryResetOk := false

/-- An environment whose global POST gate denies. -/
def deniedEnv : Env := { baseEnv with globalOk := false }

/-- An environment exercising `resendEmailVerificationCodeAction` while the
global gate would deny: logged-in user 7 without 2FA, unverified email, no
live verification request, resend buckets open. -/
def resendDeniedEnv : Env := { baseEnv with
  globalOk := false
  sessionUser := some ({ id := 1, userId := 7, twoFactorVerified := false },
    { id := 7, email := "a@b.c", emailVerified := false, registered2FA := false })
  newVerificationCode := "12345678" }

/-- An environment exercising `reset2FAAction` while the global gate would
deny: logged-in user 7 with 2FA registered, email verified, session not yet
2FA-verified, a recovery code supplied and accepted. -/
def reset2FADeniedEnv : Env := { baseEnv with
  globalOk := false
  sessionUser := some ({ id := 1, userId := 7, twoFactorVerified := false },
    { id := 7, email := "a@b.c", emailVerified := true, registered2FA := true })
  code := some "RC"
  recoveryResetOk := true }

/-- An environment reaching `resetPasswordAction`'s Forbidden branch: the
reset session's email checkpoint is unmet. -/
def resetForbiddenEnv : Env := { baseEnv with
  resetSession := some
    ({ userId := 7, emailVerified := false, twoFactorVerified := false },
      { id := 7, email := "a@b.c", emailVerified := true, registered2FA := true }) }

/-- An environment reaching `verifyEmailAction`'s expired-code branch:
user 7, live request for "new@b.c" with code "11111111" already expired at
`now = 0`, submitted code "22222222". -/
def expiredSubmitEnv : Env := { baseEnv with
  sessionUser := some ({ id := 1, userId := 7, twoFactorVerified := false },
    { id := 7, email := "a@b.c", emailVerified := false, registered2FA := false })
  verificationRequest := some
    { userId := 7, email := "new@b.c", code := "11111111", expiresAtMs := -1 }
  code := some "22222222"
  newVerificationCode := "33333333" }

/-! ### Theorems -/

/-- Step preservation for `RefillingTokenBucket.consume`: when the interval
is positive, the cost lies in `[0, max]` and the clock has not gone
backwards past the stored `refilledAt`, the stored count stays in
`[0, max]` and `refilledAt` advances to `now`. -/
theorem refill_consume_count_inv (max interval now cost : Int)
    (s : Option RefillBucket) (hi : 0 < interval) (hm : 0 ≤ max)
    (hc0 : 0 ≤ cost) (hcm : cost ≤ max)
    (hs : ∀ x, s = some x → 0 ≤ x.count ∧ x.count ≤ max ∧ x.refilledAt ≤ now) :
    0 ≤ (RefillingTokenBucket.consume max interval s now cost).2.count ∧
      (RefillingTokenBucket.consume max interval s now cost).2.count ≤ max ∧
      (RefillingTokenBucket.consume max interval s now cost).2.refilledAt = now := by
  match s with
  | none =>
    simp only [RefillingTokenBucket.consume]
    refine ⟨by linarith, by linarith, by trivial⟩
  | some x =>
    obtain ⟨hx0, hxm, hxt⟩ := hs x rfl
    simp only [RefillingTokenBucket.consume]
    have hrefill : 0 ≤ Int.fdiv (now - x.refilledAt) (interval * 1000) :=
      Int.fdiv_nonneg (by linarith) (by positivity)
    have h1 : min (x.count + Int.fdiv (now - x.refilledAt) (interval * 1000)) max ≤ max :=
      min_le_right _ _
    have h2 : 0 ≤ min (x.count + Int.fdiv (now - x.refilledAt) (interval * 1000)) max :=
      le_min (by linarith) hm
    by_cases hlt : min (x.count + Int.fdiv (now - x.refilledAt) (interval * 1000)) max < cost
    · simp only [if_pos hlt]
      exact ⟨h2, h1, by trivial⟩
    · simp only [if_neg hlt]
      push_neg at hlt
      exact ⟨by linarith, by linarith, by trivial⟩

/-- Run preservation for `RefillingTokenBucket`: under a monotone clock and
costs in `[0, max]`, every stored entry reachable from a state satisfying
the invariant keeps `0 ≤ count ≤ max`. -/
theorem runRTB_count_inv (max interval : Int) (hi : 0 < interval) (hm : 0 ≤ max) :
    ∀ (ops : List RTBOp) (t : Int) (s : Option RefillBucket),
      (∀ x, s = some x → 0 ≤ x.count ∧ x.count ≤ max ∧ x.refilledAt ≤ t) →
      RTBTimeValid t ops = true → RTBCostsLE max ops = true →
      ∀ b, runRTB max interval s ops = some b → 0 ≤ b.count ∧ b.count ≤ max
  | [], t, s, hs, _, _, b, hrun => by
      simp only [runRTB] at hrun
      exact ⟨(hs b hrun).1, (hs b hrun).2.1⟩
  | .check n c :: rest, t, s, hs, htime, hcost, b, hrun => by
      simp only [runRTB] at hrun
      simp only [RTBTimeValid, Bool.and_eq_true, decide_eq_true_eq] at htime
      simp only [RTBCostsLE, List.all_cons, Bool.and_eq_true] at hcost
      exact runRTB_count_inv max interval hi hm rest (RTBOp.check n c).now s
        (fun x hx => by
          obtain ⟨a1, a2, a3⟩ := hs x hx
          exact ⟨a1, a2, le_trans a3 htime.1⟩)
        htime.2 (by simpa [RTBCostsLE] using hcost.2) b hrun
  | .consume n c :: rest, t, s, hs, htime, hcost, b, hrun => by
      simp only [runRTB] at hrun
      simp only [RTBTimeValid, Bool.and_eq_true, decide_eq_true_eq] at htime
      simp only [RTBCostsLE, List.all_cons, Bool.and_eq_true, decide_eq_true_eq] at hcost
      have hstep := refill_consume_count_inv max interval n c s hi hm
        hcost.1.1 hcost.1.2
        (fun x hx => by
          obtain ⟨a1, a2, a3⟩ := hs x hx
          exact ⟨a1, a2, le_trans a3 htime.1⟩)
      exact runRTB_count_inv max interval hi hm rest n _
        (fun x hx => by
          obtain rfl : (RefillingTokenBucket.consume max interval s n c).2 = x :=
            Option.some_injective _ hx
          exact ⟨hstep.1, hstep.2.1, le_of_eq hstep.2.2⟩)
        htime.2 (by simpa [RTBCostsLE] using hcost.2) b hrun

/-- Step preservation for `ExpiringTokenBucket.consume`: with a cost in
`[0, max]`, the stored count stays in `[0, max]` (no clock hypothesis is
needed: expiry only snaps the count back to `max`). -/
theorem expiring_consume_count_inv (max exp now cost : Int)
    (s : Option ExpiringBucket) (hm : 0 ≤ max) (hc0 : 0 ≤ cost) (hcm : cost ≤ max)
    (hs : ∀ x, s = some x → 0 ≤ x.count ∧ x.count ≤ max) :
    0 ≤ (ExpiringTokenBucket.consume max exp s now cost).2.count ∧
      (ExpiringTokenBucket.consume max exp s now cost).2.count ≤ max := by
  match s with
  | none =>
    simp only [ExpiringTokenBucket.consume]
    exact ⟨by linarith, by linarith⟩
  | some x =>
    obtain ⟨hx0, hxm⟩ := hs x rfl
    simp only [ExpiringTokenBucket.consume]
    have hC : 0 ≤ (if now - x.createdAt ≥ exp * 1000 then max else x.count) ∧
        (if now - x.createdAt ≥ exp * 1000 then max else x.count) ≤ max := by
      split
      · exact ⟨hm, le_refl max⟩
      · exact ⟨hx0, hxm⟩
    by_cases hlt : (if now - x.createdAt ≥ exp * 1000 then max else x.count) < cost
    · simp only [if_pos hlt]
      exact hC
    · simp only [if_neg hlt]
      push_neg at hlt
      exact ⟨by linarith [hC.1], by linarith [hC.2]⟩

/-- Run preservation for `ExpiringTokenBucket`. -/
theorem runETB_count_inv (max exp : Int) (hm : 0 ≤ max) :
    ∀ (ops : List ETBOp) (s : Option ExpiringBucket),
      (∀ x, s = some x → 0 ≤ x.count ∧ x.count ≤ max) →
      ETBCostsLE max ops = true →
      ∀ b, runETB max exp s ops = some b → 0 ≤ b.count ∧ b.count ≤ max
  | [], s, hs, _, b, hrun => by
      simp only [runETB] at hrun
      exact hs b hrun
  | .check n c :: rest, s, hs, hcost, b, hrun => by
      simp only [runETB] at hrun
      simp only [ETBCostsLE, List.all_cons, Bool.and_eq_true] at hcost
      exact runETB_count_inv max exp hm rest s hs
        (by simpa [ETBCostsLE] using hcost.2) b hrun
  | .consume n c :: rest, s, hs, hcost, b, hrun => by
      simp only [runETB] at hrun
      simp only [ETBCostsLE, List.all_cons, Bool.and_eq_true, decide_eq_true_eq] at hcost
      have hstep := expiring_consume_count_inv max exp n c s hm
        hcost.1.1 hcost.1.2 hs
      exact runETB_count_inv max exp hm rest _
        (fun x hx => by
          obtain rfl : (ExpiringTokenBucket.consume max exp s n c).2 = x :=
            Option.some_injective _ hx
          exact hstep)
        (by simpa [ETBCostsLE] using hcost.2) b hrun

/-- C1 (corrected). The claim as frozen is false: it admits arbitrary
non-negative costs, but a `consume` with `cost > max` on an absent key
creates a bucket with `count = max - cost < 0` (and returns true), in both
bucket classes. Amended to costs bounded by the burst capacity (and, for
the refilling bucket, a positive refill interval and a monotone clock,
which hold for every bucket instance and clock in the repository):
starting from empty storage, after any sequence of `check`/`consume` calls
with costs in `[0, max]`, the stored entry for the key satisfies
`0 ≤ count ≤ max`. -/
theorem rate_limit_count_invariant :
    (∀ (max interval t0 : Int) (ops : List RTBOp) (b : RefillBucket),
        0 < interval → 0 ≤ max →
        RTBTimeValid t0 ops = true → RTBCostsLE max ops = true →
        runRTB max interval none ops = some b →
        0 ≤ b.count ∧ b.count ≤ max) ∧
    (∀ (max exp : Int) (ops : List ETBOp) (b : ExpiringBucket),
        0 ≤ max → ETBCostsLE max ops = true →
        runETB max exp none ops = some b →
        0 ≤ b.count ∧ b.count ≤ max) := by
  constructor
  · intro max interval t0 ops b hi hm htime hcost hrun
    exact runRTB_count_inv max interval hi hm ops t0 none
      (fun x hx => by cases hx) htime hcost b hrun
  · intro max exp ops b hm hcost hrun
    exact runETB_count_inv max exp hm ops none
      (fun x hx => by cases hx) hcost b hrun

/-- Counterexample to C1 as frozen: with burst capacity `max = 5` and the
non-negative cost `6`, a single `consume` on a fresh key succeeds and
stores `count = -1 < 0`, for the refilling bucket (interval 1s) and for the
expiring bucket (window 1800s, the repository's `totpBucket` shape). -/
theorem rate_limit_count_invariant_counterexample :
    (RefillingTokenBucket.consume 5 1 none 0 6).1 = true ∧
      (RefillingTokenBucket.consume 5 1 none 0 6).2.count = -1 ∧
      (ExpiringTokenBucket.consume 5 1800 none 0 6).1 = true ∧
      (ExpiringTokenBucket.consume 5 1800 none 0 6).2.count = -1 := by
  decide

/-- If every `consume` of an in-window run succeeds, the final count is the
initial count minus the total cost (stated as an upper bound). -/
theorem runETBConsumes_le (max exp : Int) :
    ∀ (ops : List (Int × Int)) (b0 b' : ExpiringBucket),
      runETBConsumes max exp (some b0) ops = (some b', true) →
      ETBNoSnap max exp (some b0) ops = true →
      b'.count ≤ b0.count - (ops.map (fun p => p.2)).sum
  | [], b0, b', hrun, _ => by
      simp only [runETBConsumes, Prod.mk.injEq] at hrun
      obtain ⟨h1, -⟩ := hrun
      obtain rfl : b0 = b' := Option.some_injective _ h1
      simp
  | (now, c) :: rest, b0, b', hrun, hsnap => by
      simp only [ETBNoSnap, Bool.and_eq_true, decide_eq_true_eq] at hsnap
      obtain ⟨hns, hsnap'⟩ := hsnap
      have hcond : ¬ (now - b0.createdAt ≥ exp * 1000) := by linarith
      simp only [runETBConsumes, ExpiringTokenBucket.consume, if_neg hcond]
        at hrun hsnap'
      by_cases hlt : b0.count < c
      · simp only [if_pos hlt, Bool.false_and, Prod.mk.injEq] at hrun
        exact absurd hrun.2 (by simp)
      · simp only [if_neg hlt, Bool.true_and, Prod.mk.injEq] at hrun hsnap'
        push_neg at hlt
        have ih := runETBConsumes_le max exp rest
          { count := b0.count - c, createdAt := b0.createdAt } b'
          (by
            rw [Prod.mk.injEq] ; exact ⟨hrun.1, hrun.2⟩)
          hsnap'
      -- final arithmetic
        simp only [List.map_cons, List.sum_cons]
        simp only at ih
        linarith

/-- Counterexample to C2 as frozen: with `max = 5` and a 1800 s window
(the repository's `totpBucket`), the entry `{count := 0, createdAt := 0}`
is reachable from empty storage (one consume of 5 at t=0). At
t = 1800 s that entry is expired, and since `consume` snaps the count
back to `max` without updating `createdAt`, a consume totalling `max = 5`
succeeds AND the immediately following consume of 1 more token succeeds
too, where the claim requires it to return false. -/
theorem expiring_bucket_exhaustion_counterexample :
    runETB 5 1800 none [ETBOp.consume 0 5] =
        some { count := 0, createdAt := 0 } ∧
      (ExpiringTokenBucket.consume 5 1800 (some { count := 0, createdAt := 0 })
        1800000 5).1 = true ∧
      (ExpiringTokenBucket.consume 5 1800
          (some (ExpiringTokenBucket.consume 5 1800
            (some { count := 0, createdAt := 0 }) 1800000 5).2)
          1800000 1).1 = true := by
  decide

/-- C2 (corrected). The claim as frozen quantifies over any reachable
state, but `consume` never updates `createdAt` when it snaps the count
back to `max`, so an entry whose window has elapsed stays expired forever:
from such a reachable state, consuming `max` tokens and then one more
token both succeed (see the counterexample). Amended to calls inside the
entry's expiry window: from any stored entry whose count does not exceed
`max` (or an absent entry), if a sequence of `consume` calls totalling
`max` tokens all succeed with every call un-expired
(`now - createdAt < expiresInSeconds*1000`), an immediately following
`consume` of one more token (still un-expired) returns false. Second
part, unchanged from the claim: once
`now - createdAt ≥ expiresInSeconds*1000` (or the entry is absent),
consuming `max` tokens succeeds regardless of prior state, because the
bucket snaps back to `max` tokens. -/
theorem expiring_bucket_exhaustion_and_reset :
    (∀ (max exp : Int) (s : Option ExpiringBucket) (ops : List (Int × Int))
        (b' : ExpiringBucket) (extraNow : Int),
        (∀ b, s = some b → b.count ≤ max) →
        (ops.map (fun p => p.2)).sum = max →
        ETBNoSnap max exp s ops = true →
        runETBConsumes max exp s ops = (some b', true) →
        extraNow - b'.createdAt < exp * 1000 →
        (ExpiringTokenBucket.consume max exp (some b') extraNow 1).1 = false) ∧
    (∀ (max exp now : Int) (s : Option ExpiringBucket),
        (∀ b, s = some b → now - b.createdAt ≥ exp * 1000) →
        (ExpiringTokenBucket.consume max exp s now max).1 = true) := by
  constructor
  · intro max exp s ops b' extraNow hle hsum hsnap hrun hfresh
    have hb' : b'.count ≤ 0 := by
      match s, ops with
      | none, [] =>
        simp only [runETBConsumes, Prod.mk.injEq] at hrun
        exact absurd hrun.1 (by simp)
      | none, (now, c) :: rest =>
        simp only [ETBNoSnap, Bool.and_eq_true] at hsnap
        simp only [runETBConsumes, ExpiringTokenBucket.consume, Bool.true_and,
          Prod.mk.injEq] at hrun hsnap
        have ih := runETBConsumes_le max exp rest
          { count := max - c, createdAt := now } b'
          (by rw [Prod.mk.injEq] ; exact ⟨hrun.1, hrun.2⟩) hsnap.2
        simp only [List.map_cons, List.sum_cons] at hsum
        simp only at ih
        linarith
      | some b0, ops =>
        have ih := runETBConsumes_le max exp ops b0 b' hrun hsnap
        have := hle b0 rfl
        linarith
    have hcond : ¬ (extraNow - b'.createdAt ≥ exp * 1000) := by linarith
    simp only [ExpiringTokenBucket.consume, if_neg hcond,
      if_pos (show b'.count < 1 by linarith)]
  · intro max exp now s hexp
    match s with
    | none => simp [ExpiringTokenBucket.consume]
    | some b =>
      simp only [ExpiringTokenBucket.consume, if_pos (hexp b rfl),
        if_neg (lt_irrefl max)]

/-- Witness for `expiring_bucket_exhaustion_and_reset` at concrete inputs:
`max = 2`, window 60s, fresh key; consuming 1 at t=0 and 1 at t=5 succeeds
and one more token at t=10 is refused; and a bucket created at t=0 with 0
tokens left accepts a 5-token consume at t=1800s under `max = 5`,
window 1800s. -/
theorem expiring_bucket_exhaustion_and_reset_witness :
    (ExpiringTokenBucket.consume 2 60 (some { count := 0, createdAt := 0 }) 10 1).1
        = false ∧
      (ExpiringTokenBucket.consume 5 1800 (some { count := 0, createdAt := 0 })
        1800000 5).1 = true :=
  ⟨expiring_bucket_exhaustion_and_reset.1 2 60 none [(0, 1), (5, 1)]
      { count := 0, createdAt := 0 } 10
      (by intro b h ; cases h) (by decide) (by decide) (by decide) (by decide),
    expiring_bucket_exhaustion_and_reset.2 5 1800 1800000
      (some { count := 0, createdAt := 0 })
      (by intro b h ; cases h ; decide)⟩

/-- C8 (confirmed). When `RefillingTokenBucket.consume` returns false for a
stored entry, the entry it persists carries the refilled (but not
decremented) count, still below `cost`, and its `refilledAt` is advanced to
`now`; hence an immediately following `check` at the same instant computes
zero further refill and also returns false. -/
theorem refill_consume_fail_check_fail (max interval now cost : Int)
    (b : RefillBucket)
    (hfail : (RefillingTokenBucket.consume max interval (some b) now cost).1 = false) :
    RefillingTokenBucket.check max interval
        (some (RefillingTokenBucket.consume max interval (some b) now cost).2)
        now cost = false ∧
      (RefillingTokenBucket.consume max interval (some b) now cost).2.refilledAt
        = now := by
  by_cases hlt : min (b.count + Int.fdiv (now - b.refilledAt) (interval * 1000)) max < cost
  · simp only [RefillingTokenBucket.consume, if_pos hlt] at hfail ⊢
    constructor
    · simp only [RefillingTokenBucket.check, sub_self, Int.zero_fdiv, gt_iff_lt,
        lt_irrefl, if_false, ge_iff_le, decide_eq_false_iff_not, not_le]
      exact hlt
    · trivial
  · simp only [RefillingTokenBucket.consume, if_neg hlt] at hfail
    exact absurd hfail (by simp)

/-- Witness for `refill_consume_fail_check_fail`: a bucket with 0 tokens
refilled at t=0, `max = 20`, interval 1s: consuming 1 token at t=500ms
fails, and the immediate `check` at t=500ms fails too. -/
theorem refill_consume_fail_check_fail_witness :
    RefillingTokenBucket.check 20 1
        (some (RefillingTokenBucket.consume 20 1
          (some { count := 0, refilledAt := 0 }) 500 1).2) 500 1 = false ∧
      (RefillingTokenBucket.consume 20 1
        (some { count := 0, refilledAt := 0 }) 500 1).2.refilledAt = 500 :=
  refill_consume_fail_check_fail 20 1 500 1 { count := 0, refilledAt := 0 }
    (by decide)

/-- Step preservation: `Throttler.consume` keeps the stored level below the
length of a non-empty `timeoutSeconds`. -/
theorem Throttler.consume_timeout_lt (timeoutSeconds : List Int)
    (s : Option ThrottlingCounter) (now : Int) (hne : timeoutSeconds ≠ [])
    (hs : ∀ c, s = some c → c.timeout < timeoutSeconds.length) :
    (consume timeoutSeconds s now).2.timeout < timeoutSeconds.length := by
  have hlen : 0 < timeoutSeconds.length := List.length_pos.mpr hne
  match s with
  | none => simpa [consume] using hlen
  | some c =>
    simp only [consume]
    split
    · have : min (c.timeout + 1) (timeoutSeconds.length - 1)
          ≤ timeoutSeconds.length - 1 := min_le_right _ _
      simp only
      omega
    · exact hs c rfl

/-- C10 (confirmed). For a `Throttler` built from a non-empty
`timeoutSeconds` array, after any sequence of `consume`/`reset` calls the
stored counter's level is in `[0, length - 1]`; hence the array access
`timeoutSeconds[counter.timeout]` inside `consume` is in bounds. -/
theorem throttler_timeout_in_bounds (timeoutSeconds : List Int)
    (ops : List ThrottlerOp) (c : ThrottlingCounter)
    (hne : timeoutSeconds ≠ [])
    (hrun : runThrottler timeoutSeconds none ops = some c) :
    c.timeout < timeoutSeconds.length := by
  suffices h : ∀ (ops : List ThrottlerOp) (s : Option ThrottlingCounter),
      (∀ x, s = some x → x.timeout < timeoutSeconds.length) →
      ∀ x, runThrottler timeoutSeconds s ops = some x →
        x.timeout < timeoutSeconds.length by
    exact h ops none (fun x hx => by cases hx) c hrun
  intro ops
  induction ops with
  | nil =>
    intro s hs x hx
    exact hs x hx
  | cons op rest ih =>
    intro s hs x hx
    match op with
    | .consume now =>
      simp only [runThrottler] at hx
      exact ih (some (Throttler.consume timeoutSeconds s now).2)
        (fun y hy => by
          obtain rfl : (Throttler.consume timeoutSeconds s now).2 = y :=
            Option.some_injective _ hy
          exact Throttler.consume_timeout_lt timeoutSeconds s now hne hs)
        x hx
    | .reset =>
      simp only [runThrottler] at hx
      exact ih none (fun y hy => by cases hy) x hx

/-- Witness for `throttler_timeout_in_bounds`: the login throttler delays
`[1,2,4,8,16,30,60,180,300]`; consuming at t=0s, t=1s, t=3s then resetting
and consuming again at t=10s stores level 0, within bounds 9. -/
theorem throttler_timeout_in_bounds_witness :
    ({ timeout := 0, updatedAt := 10000 } : ThrottlingCounter).timeout
      < ([1, 2, 4, 8, 16, 30, 60, 180, 300] : List Int).length :=
  throttler_timeout_in_bounds [1, 2, 4, 8, 16, 30, 60, 180, 300]
    [ThrottlerOp.consume 0, ThrottlerOp.consume 1000, ThrottlerOp.consume 3000,
      ThrottlerOp.reset, ThrottlerOp.consume 10000]
    { timeout := 0, updatedAt := 10000 } (by decide) (by decide)

/-- C7 (confirmed). For an existing session: if `now` is at or past
`expiresAt` the session is deleted and `(null, null)` returned; otherwise
renewal happens exactly when `now` is within 15 days of `expiresAt`, in
which case the returned session carries `expiresAt = now + 30 days` and the
row is updated to it (truncated to the store's second granularity), and
otherwise both the returned and the stored expiry are unchanged. -/
theorem session_sliding_renewal (now expiresAtSec : Int) :
    (now ≥ expiresAtSec * 1000 →
        validateSessionExpiry now expiresAtSec = (none, none)) ∧
      (now < expiresAtSec * 1000 → now ≥ expiresAtSec * 1000 - 15 * dayMs →
        validateSessionExpiry now expiresAtSec =
          (some (now + 30 * dayMs), some (Int.fdiv (now + 30 * dayMs) 1000))) ∧
      (now < expiresAtSec * 1000 - 15 * dayMs →
        validateSessionExpiry now expiresAtSec =
          (some (expiresAtSec * 1000), some expiresAtSec)) := by
  refine ⟨fun h => ?_, fun h1 h2 => ?_, fun h => ?_⟩
  · simp only [validateSessionExpiry, if_pos h]
  · simp only [validateSessionExpiry, if_neg (not_le.mpr h1), if_pos h2]
  · have h1 : ¬ now ≥ expiresAtSec * 1000 := by
      simp only [dayMs] at h ⊢ ; omega
    have h2 : ¬ now ≥ expiresAtSec * 1000 - 15 * dayMs := not_le.mpr h
    simp only [validateSessionExpiry, if_neg h1, if_neg h2]

/-- Witness for `session_sliding_renewal` at concrete inputs: at `now = 0`,
a session expiring 10 days out (864000 s) is renewed to 30 days from now
(returned ms and stored seconds), one expiring 20 days out (1728000 s) is
returned and stored unchanged, and one that expired at second 0 on
`now = 1` is deleted. -/
theorem session_sliding_renewal_witness :
    validateSessionExpiry 0 864000 = (some (30 * dayMs), some 2592000) ∧
      validateSessionExpiry 0 1728000 = (some 1728000000, some 1728000) ∧
      validateSessionExpiry 1 0 = (none, none) :=
  ⟨by
      have h := (session_sliding_renewal 0 864000).2.1 (by decide) (by decide)
      simpa using h,
    (session_sliding_renewal 0 1728000).2.2 (by decide),
    (session_sliding_renewal 1 0).1 (by decide)⟩

/-- Counterexample to C4 as frozen: `resetUser2FAWithRecoveryCode` runs
`UPDATE session SET two_factor_verified = 0 WHERE user_id = ?`; on a table
holding one live session of user 7 with the flag set, the session still
exists afterwards (it is not invalidated) and its flag is false again. -/
theorem session_2fa_flag_one_way_counterexample :
    applySessionOp
        [{ id := 1, userId := 7, expiresAtSec := 100, twoFactorVerified := true }]
        (SessionOp.reset2FA 7)
      = [{ id := 1, userId := 7, expiresAtSec := 100, twoFactorVerified := false }] := by
  decide

/-- C4 (corrected). The claim as frozen says no operation other than full
invalidation ever clears a session's `twoFactorVerified`; the session
UPDATE of `resetUser2FAWithRecoveryCode` does exactly that while the
sessions keep existing. Amended: for every session-table operation OTHER
than that reset, a session whose flag is true and which still exists after
the operation still has the flag true (the flag is cleared only by full
deletion of the session, or by `resetUser2FAWithRecoveryCode`, which
clears it on every session of the user). -/
theorem session_2fa_flag_one_way (t : List SessionRow) (op : SessionOp)
    (hnd : (t.map fun s => s.id).Nodup)
    (hop : ∀ uid, op ≠ SessionOp.reset2FA uid)
    (s : SessionRow) (hs : s ∈ t) (hflag : s.twoFactorVerified = true)
    (s' : SessionRow) (hs' : s' ∈ applySessionOp t op) (hid : s'.id = s.id) :
    s'.twoFactorVerified = true := by
  have hinj : ∀ x ∈ t, ∀ y ∈ t, x.id = y.id → x = y := by
    intro x hx y hy hxy
    exact List.inj_on_of_nodup_map hnd hx hy hxy
  have of_mem_t : s' ∈ t → s'.twoFactorVerified = true := by
    intro hmem
    have := hinj s' hmem s hs hid
    rw [this]
    exact hflag
  have of_mem_map : ∀ (f : SessionRow → SessionRow),
      (∀ r, (f r).id = r.id) →
      (∀ r, r.twoFactorVerified = true → (f r).twoFactorVerified = true) →
      s' ∈ t.map f → s'.twoFactorVerified = true := by
    intro f hfid hfflag hmem
    obtain ⟨r, hr, rfl⟩ := List.mem_map.mp hmem
    have : r = s := hinj r hr s hs (by rw [← hfid r] ; exact hid)
    rw [this]
    exact hfflag s hflag
  match op with
  | .create id userId now flag =>
    simp only [applySessionOp] at hs'
    split at hs'
    · exact of_mem_t hs'
    · rename_i hfresh
      rcases List.mem_append.mp hs' with h | h
      · exact of_mem_t h
      · exfalso
        simp only [List.mem_singleton] at h
        have hsid : s.id = id := by rw [← hid, h]
        exact hfresh (List.any_eq_true.mpr ⟨s, hs, by simp [hsid]⟩)
  | .set2FAVerified id =>
    refine of_mem_map _ (fun r => ?_) (fun r hr => ?_) hs'
    · by_cases h : r.id = id <;> simp [h]
    · by_cases h : r.id = id <;> simp [h, hr]
  | .invalidate id =>
    exact of_mem_t (List.mem_of_mem_filter hs')
  | .invalidateAllForUser userId =>
    exact of_mem_t (List.mem_of_mem_filter hs')
  | .reset2FA userId =>
    exact absurd rfl (hop userId)
  | .validate id now =>
    simp only [applySessionOp] at hs'
    match hfind : List.find? (fun s => s.id == id) t with
    | none =>
      rw [hfind] at hs'
      exact of_mem_t hs'
    | some r0 =>
      rw [hfind] at hs'
      dsimp only at hs'
      by_cases h1 : now ≥ r0.expiresAtSec * 1000
      · rw [if_pos h1] at hs'
        exact of_mem_t (List.mem_of_mem_filter hs')
      · rw [if_neg h1] at hs'
        by_cases h2 : now ≥ r0.expiresAtSec * 1000 - 15 * dayMs
        · rw [if_pos h2] at hs'
          refine of_mem_map _ (fun r => ?_) (fun r hr => ?_) hs'
          · by_cases h : r.id = id <;> simp [h]
          · by_cases h : r.id = id <;> simp [h, hr]
        · rw [if_neg h2] at hs'
          exact of_mem_t hs'

/-- Witness for `session_2fa_flag_one_way`: marking session 2 as verified
leaves session 1's true flag true. -/
theorem session_2fa_flag_one_way_witness :
    ({ id := 1, userId := 7, expiresAtSec := 100, twoFactorVerified := true }
        : SessionRow).twoFactorVerified = true :=
  session_2fa_flag_one_way
    [{ id := 1, userId := 7, expiresAtSec := 100, twoFactorVerified := true },
      { id := 2, userId := 7, expiresAtSec := 50, twoFactorVerified := true }]
    (SessionOp.set2FAVerified 2)
    (by decide) (by intro uid h ; cases h)
    { id := 1, userId := 7, expiresAtSec := 100, twoFactorVerified := true }
    (by decide) rfl
    { id := 1, userId := 7, expiresAtSec := 100, twoFactorVerified := true }
    (by decide) rfl

/-- C5 (confirmed). `resetUser2FAWithRecoveryCode` returns true only when
the supplied code equals the user's stored (decrypted) recovery code; on a
match it returns true, clears the user's TOTP key, replaces the stored
recovery code with the fresh one, and clears `twoFactorVerified` on every
session of that user (sessions of other users are untouched); on a
mismatch it returns false and changes nothing. User ids are unique (the
primary key of the `user` table). -/
theorem reset_2fa_recovery_code_correct (users : List UserRow)
    (sessions : List SessionRow) (userId : Nat) (code newCode : String)
    (hnd : (users.map fun u => u.id).Nodup) :
    ((resetUser2FAWithRecoveryCode users sessions userId code newCode).1 = true →
      ∃ u ∈ users, u.id = userId ∧ u.recoveryCode = code) ∧
    (∀ u ∈ users, u.id = userId → u.recoveryCode = code →
      (resetUser2FAWithRecoveryCode users sessions userId code newCode).1 = true ∧
      (∀ v ∈ (resetUser2FAWithRecoveryCode users sessions userId code newCode).2.1,
        v.id = userId → v.totpKey = none ∧ v.recoveryCode = newCode) ∧
      (∀ s ∈ (resetUser2FAWithRecoveryCode users sessions userId code newCode).2.2,
        s.userId = userId → s.twoFactorVerified = false) ∧
      (∀ s ∈ sessions, s.userId ≠ userId →
        s ∈ (resetUser2FAWithRecoveryCode users sessions userId code newCode).2.2)) ∧
    (∀ u ∈ users, u.id = userId → u.recoveryCode ≠ code →
      (resetUser2FAWithRecoveryCode users sessions userId code newCode).1 = false ∧
      (resetUser2FAWithRecoveryCode users sessions userId code newCode).2.1 = users ∧
      (resetUser2FAWithRecoveryCode users sessions userId code newCode).2.2 = sessions) := by
  have hinj : ∀ x ∈ users, ∀ y ∈ users, x.id = y.id → x = y := by
    intro x hx y hy hxy
    exact List.inj_on_of_nodup_map hnd hx hy hxy
  match hfind : users.find? (fun u => u.id == userId) with
  | none =>
    have hno : ∀ u ∈ users, u.id ≠ userId := by
      intro u hu
      have := List.find?_eq_none.mp hfind u hu
      simpa using this
    refine ⟨?_, ?_, ?_⟩
    · intro htrue
      simp only [resetUser2FAWithRecoveryCode, hfind] at htrue
      exact absurd htrue (by simp)
    · intro u hu huid
      exact absurd huid (hno u hu)
    · intro u hu huid
      exact absurd huid (hno u hu)
  | some u0 =>
    have hu0mem : u0 ∈ users := List.mem_of_find?_eq_some hfind
    have hu0id : u0.id = userId := by
      have := List.find?_some hfind
      simpa using this
    refine ⟨?_, ?_, ?_⟩
    · intro htrue
      simp only [resetUser2FAWithRecoveryCode, hfind] at htrue
      by_cases hne : code ≠ u0.recoveryCode
      · rw [if_pos hne] at htrue
        exact absurd htrue (by simp)
      · push_neg at hne
        exact ⟨u0, hu0mem, hu0id, hne.symm⟩
    · intro u hu huid hcode
      obtain rfl : u0 = u := hinj u0 hu0mem u hu (by rw [hu0id, huid])
      have hne : ¬ code ≠ u0.recoveryCode := by
        push_neg
        exact hcode.symm
      refine ⟨?_, ?_, ?_, ?_⟩
      · simp only [resetUser2FAWithRecoveryCode, hfind, if_neg hne]
        have hmem : u0 ∈ users.filter fun v =>
            v.id = userId ∧ v.recoveryCode = u0.recoveryCode := by
          rw [List.mem_filter]
          exact ⟨hu0mem, by simp [huid]⟩
        simp only [decide_eq_true_eq]
        exact List.length_pos.mpr (List.ne_nil_of_mem hmem)
      · intro v hv hvid
        simp only [resetUser2FAWithRecoveryCode, hfind, if_neg hne] at hv
        obtain ⟨w, hw, hfw⟩ := List.mem_map.mp hv
        by_cases hcond : w.id = userId ∧ w.recoveryCode = u0.recoveryCode
        · rw [if_pos hcond] at hfw
          rw [← hfw]
          exact ⟨rfl, rfl⟩
        · rw [if_neg hcond] at hfw
          exfalso
          obtain rfl : w = u0 := hinj w hw u0 hu0mem (by rw [hfw, hvid, huid])
          exact hcond ⟨by rw [hfw] ; exact hvid, rfl⟩
      · intro s hsmem hsuid
        simp only [resetUser2FAWithRecoveryCode, hfind, if_neg hne] at hsmem
        obtain ⟨w, hw, hfw⟩ := List.mem_map.mp hsmem
        by_cases hcond : w.userId = userId
        · rw [if_pos hcond] at hfw
          rw [← hfw]
        · rw [if_neg hcond] at hfw
          exact absurd (hfw ▸ hsuid) hcond
      · intro s hsmem hsuid
        simp only [resetUser2FAWithRecoveryCode, hfind, if_neg hne]
        exact List.mem_map.mpr ⟨s, hsmem, by rw [if_neg hsuid]⟩
    · intro u hu huid hcode
      obtain rfl : u0 = u := hinj u0 hu0mem u hu (by rw [hu0id, huid])
      have hne : code ≠ u0.recoveryCode := fun h => hcode h.symm
      simp [resetUser2FAWithRecoveryCode, hfind, if_pos hne]

/-- Witness for `reset_2fa_recovery_code_correct`: user 7 with stored code
"AAAA" and a TOTP key, sessions 1 (user 7) and 2 (user 8); supplying
"AAAA" succeeds, clears the key, installs "BBBB" and clears the flag on
session 1 while session 2 keeps its flag. -/
theorem reset_2fa_recovery_code_correct_witness :
    (resetUser2FAWithRecoveryCode
        [{ id := 7, recoveryCode := "AAAA", totpKey := some "K" }]
        [{ id := 1, userId := 7, expiresAtSec := 100, twoFactorVerified := true },
          { id := 2, userId := 8, expiresAtSec := 100, twoFactorVerified := true }]
        7 "AAAA" "BBBB").1 = true ∧
      (∀ v ∈ (resetUser2FAWithRecoveryCode
          [{ id := 7, recoveryCode := "AAAA", totpKey := some "K" }]
          [{ id := 1, userId := 7, expiresAtSec := 100, twoFactorVerified := true },
            { id := 2, userId := 8, expiresAtSec := 100, twoFactorVerified := true }]
          7 "AAAA" "BBBB").2.1,
        v.id = 7 → v.totpKey = none ∧ v.recoveryCode = "BBBB") :=
  ⟨((reset_2fa_recovery_code_correct
        [{ id := 7, recoveryCode := "AAAA", totpKey := some "K" }]
        [{ id := 1, userId := 7, expiresAtSec := 100, twoFactorVerified := true },
          { id := 2, userId := 8, expiresAtSec := 100, twoFactorVerified := true }]
        7 "AAAA" "BBBB" (by decide)).2.1
      { id := 7, recoveryCode := "AAAA", totpKey := some "K" }
      (by decide) rfl rfl).1,
    ((reset_2fa_recovery_code_correct
        [{ id := 7, recoveryCode := "AAAA", totpKey := some "K" }]
        [{ id := 1, userId := 7, expiresAtSec := 100, twoFactorVerified := true },
          { id := 2, userId := 8, expiresAtSec := 100, twoFactorVerified := true }]
        7 "AAAA" "BBBB" (by decide)).2.1
      { id := 7, recoveryCode := "AAAA", totpKey := some "K" }
      (by decide) rfl rfl).2.1⟩

/-- Witness for `rate_limit_count_invariant` at concrete inputs: a refilling
bucket `max = 5`, interval 1s, consuming 2 at t=0 then 3 at t=1000ms ends
at count 1; an expiring bucket `max = 3`, window 3600s, consuming 3 then 2
at the same instant (second call fails) ends at count 0. -/
theorem rate_limit_count_invariant_witness :
    (0 ≤ ({ count := 1, refilledAt := 1000 } : RefillBucket).count ∧
      ({ count := 1, refilledAt := 1000 } : RefillBucket).count ≤ 5) ∧
    (0 ≤ ({ count := 0, createdAt := 0 } : ExpiringBucket).count ∧
      ({ count := 0, createdAt := 0 } : ExpiringBucket).count ≤ 3) :=
  ⟨rate_limit_count_invariant.1 5 1 0
      [RTBOp.consume 0 2, RTBOp.check 500 1, RTBOp.consume 1000 3]
      { count := 1, refilledAt := 1000 }
      (by decide) (by decide) (by decide) (by decide) (by decide),
    rate_limit_count_invariant.2 3 3600
      [ETBOp.consume 0 3, ETBOp.consume 0 2]
      { count := 0, createdAt := 0 }
      (by decide) (by decide) (by decide)⟩

/-- C3 (corrected). The claim as frozen covers all ten mutating actions,
but `resendEmailVerificationCodeAction` and `reset2FAAction` never invoke
the global POST rate limiter (see the counterexample). Amended to the
remaining eight actions (login, verify-email, 2FA setup, 2FA challenge,
password update, email change, forgot-password, reset-password): each
calls `globalPOSTRateLimit` before any other external work, and when the
gate denies it returns the message "Too many requests" having performed no
call other than the gate itself. -/
theorem global_gate_first (e : Env) (h : e.globalOk = false) :
    loginAction e = (.message "Too many requests", [Effect.globalLimit]) ∧
      verifyEmailAction e = (.message "Too many requests", [Effect.globalLimit]) ∧
      setup2FAAction e = (.message "Too many requests", [Effect.globalLimit]) ∧
      verify2FAAction e = (.message "Too many requests", [Effect.globalLimit]) ∧
      updatePasswordAction e = (.message "Too many requests", [Effect.globalLimit]) ∧
      updateEmailAction e = (.message "Too many requests", [Effect.globalLimit]) ∧
      forgotPasswordAction e = (.message "Too many requests", [Effect.globalLimit]) ∧
      resetPasswordAction e = (.message "Too many requests", [Effect.globalLimit]) := by
  refine ⟨?_, ?_, ?_, ?_, ?_, ?_, ?_, ?_⟩ <;>
    simp [loginAction, verifyEmailAction, setup2FAAction, verify2FAAction,
      updatePasswordAction, updateEmailAction, forgotPasswordAction,
      resetPasswordAction, h]

/-- Counterexample to C3 as frozen: in environments where the global gate
would deny, `resendEmailVerificationCodeAction` completes a full resend
(new request minted, mail sent, cookie set) and `reset2FAAction` completes
a full recovery reset, neither returning "Too many requests" nor ever
calling the global limiter (no `globalLimit` in their traces). -/
theorem global_gate_first_counterexample :
    resendDeniedEnv.globalOk = false ∧
      (resendEmailVerificationCodeAction resendDeniedEnv).1 =
        ActionResult.message "A new code was sent to your inbox." ∧
      Effect.globalLimit ∉ (resendEmailVerificationCodeAction resendDeniedEnv).2 ∧
      (resendEmailVerificationCodeAction resendDeniedEnv).2 ≠ [] ∧
      reset2FADeniedEnv.globalOk = false ∧
      (reset2FAAction reset2FADeniedEnv).1 = ActionResult.redirect "/2fa/setup" ∧
      Effect.globalLimit ∉ (reset2FAAction reset2FADeniedEnv).2 ∧
      Effect.recoveryReset 7 ∈ (reset2FAAction reset2FADeniedEnv).2 := by
  decide

/-- Witness for `global_gate_first` at the concrete denied environment. -/
theorem global_gate_first_witness :
    loginAction deniedEnv = (.message "Too many requests", [Effect.globalLimit]) ∧
      verifyEmailAction deniedEnv = (.message "Too many requests", [Effect.globalLimit]) ∧
      setup2FAAction deniedEnv = (.message "Too many requests", [Effect.globalLimit]) ∧
      verify2FAAction deniedEnv = (.message "Too many requests", [Effect.globalLimit]) ∧
      updatePasswordAction deniedEnv = (.message "Too many requests", [Effect.globalLimit]) ∧
      updateEmailAction deniedEnv = (.message "Too many requests", [Effect.globalLimit]) ∧
      forgotPasswordAction deniedEnv = (.message "Too many requests", [Effect.globalLimit]) ∧
      resetPasswordAction deniedEnv = (.message "Too many requests", [Effect.globalLimit]) :=
  global_gate_first deniedEnv rfl

/-- C6 (confirmed). `resetPasswordAction` reaches its terminal work
(`updateUserPassword`, and with it the session invalidations and the fresh
session) only when the reset session's email checkpoint is true and, if
the user has a second factor, its 2FA checkpoint is true; whenever a
required checkpoint is unmet (and the gate admits the request) it returns
"Forbidden" having performed nothing beyond the gate and the reset-session
lookup. -/
theorem reset_password_checkpoints (e : Env) :
    (∀ uid, Effect.updatePassword uid ∈ (resetPasswordAction e).2 →
      ∃ rs user, e.resetSession = some (rs, user) ∧ rs.emailVerified = true ∧
        (user.registered2FA = true → rs.twoFactorVerified = true) ∧
        uid = rs.userId) ∧
    (∀ rs user, e.resetSession = some (rs, user) → e.globalOk = true →
      (rs.emailVerified = false ∨
        (user.registered2FA = true ∧ rs.twoFactorVerified = false)) →
      resetPasswordAction e =
        (.message "Forbidden", [Effect.globalLimit, Effect.readDB "reset_session"])) := by
  constructor
  · intro uid hmem
    by_cases hg : e.globalOk = true
    · rcases hrs : e.resetSession with _ | ⟨rs, user⟩
      · simp [resetPasswordAction, hg, hrs] at hmem
      · by_cases hev : rs.emailVerified = true
        · by_cases h2 : (user.registered2FA && !rs.twoFactorVerified) = true
          · simp [resetPasswordAction, hg, hrs, hev, h2] at hmem
          · rcases hpw : e.password with _ | pw
            · simp [resetPasswordAction, hg, hrs, hev, h2, hpw] at hmem
            · by_cases hstr : e.strongPassword = true
              · simp [resetPasswordAction, hg, hrs, hev, h2, hpw, hstr] at hmem
                exact ⟨rs, user, rfl, hev, fun hr => by
                  cases ht : rs.twoFactorVerified
                  · simp [hr, ht] at h2
                  · rfl, hmem⟩
              · simp [resetPasswordAction, hg, hrs, hev, h2, hpw, hstr] at hmem
        · simp [resetPasswordAction, hg, hrs, hev] at hmem
    · simp [resetPasswordAction, Bool.eq_false_iff.mpr hg] at hmem
  · intro rs user hrs hg hbad
    rcases hbad with hev | ⟨hr, ht⟩
    · simp [resetPasswordAction, hg, hrs, hev]
    · by_cases hev : rs.emailVerified = true
      · simp [resetPasswordAction, hg, hrs, hev, hr, ht]
      · simp [resetPasswordAction, hg, hrs, Bool.eq_false_iff.mpr hev]

/-- Witness for `reset_password_checkpoints` at a concrete environment:
with the email checkpoint false the action returns "Forbidden" after only
the gate and the lookup. -/
theorem reset_password_checkpoints_witness :
    resetPasswordAction resetForbiddenEnv =
      (.message "Forbidden", [Effect.globalLimit, Effect.readDB "reset_session"]) :=
  (reset_password_checkpoints resetForbiddenEnv).2
    { userId := 7, emailVerified := false, twoFactorVerified := false }
    { id := 7, email := "a@b.c", emailVerified := true, registered2FA := true }
    (by decide) (by decide) (Or.inl (by decide))

/-- C9 (confirmed). When `verifyEmailAction` is submitted with a non-empty
code after the request's expiry (all upstream gates passing), it returns
the "expired, new code sent" message; its trace mints a replacement
request for the same user and email — deleting that user's prior requests
first (`createEmailVerificationRequest`) — and sends the new code; the
trace contains no `updateEmailVerified` (the user's email and
email_verified columns are untouched) and no terminal failure. -/
theorem verify_email_expired_reissue (e : Env) (si : SessionInfo) (u : UserInfo)
    (req : EVRequestInfo) (c : String)
    (hg : e.globalOk = true)
    (hsu : e.sessionUser = some (si, u))
    (h2fa : u.registered2FA = true → si.twoFactorVerified = true)
    (hchk : e.evCheckOk = true)
    (hreq : e.verificationRequest = some req)
    (hcode : e.code = some c) (hc : c ≠ "")
    (hcons : e.evConsumeOk = true)
    (hexp : e.now ≥ req.expiresAtMs) :
    verifyEmailAction e =
      (.message
        "The verification code was expired. We sent another code to your inbox.",
        [Effect.globalLimit, Effect.readSession,
          Effect.checkBucket "email_verification",
          Effect.readDB "verification_request",
          Effect.consumeBucket "email_verification",
          Effect.deleteEmailVerificationRequests req.userId,
          Effect.insertEmailVerificationRequest req.userId req.email
            e.newVerificationCode,
          Effect.sendVerificationMail req.email e.newVerificationCode]) := by
  have hb : (u.registered2FA && !si.twoFactorVerified) = false := by
    cases hr : u.registered2FA
    · simp
    · simp [h2fa hr]
  simp [verifyEmailAction, createEmailVerificationRequestFx, hg, hsu, hb,
    hchk, hreq, hcode, hc, hcons, hexp]

/-- Witness for `verify_email_expired_reissue` at `expiredSubmitEnv`. -/
theorem verify_email_expired_reissue_witness :
    verifyEmailAction expiredSubmitEnv =
      (.message
        "The verification code was expired. We sent another code to your inbox.",
        [Effect.globalLimit, Effect.readSession,
          Effect.checkBucket "email_verification",
          Effect.readDB "verification_request",
          Effect.consumeBucket "email_verification",
          Effect.deleteEmailVerificationRequests 7,
          Effect.insertEmailVerificationRequest 7 "new@b.c" "33333333",
          Effect.sendVerificationMail "new@b.c" "33333333"]) :=
  verify_email_expired_reissue expiredSubmitEnv
    { id := 1, userId := 7, twoFactorVerified := false }
    { id := 7, email := "a@b.c", emailVerified := false, registered2FA := false }
    { userId := 7, email := "new@b.c", code := "11111111", expiresAtMs := -1 }
    "22222222" (by decide) (by decide) (by intro h ; cases h) (by decide)
    (by decide) (by decide) (by decide) (by decide) (by decide)
